import Mathlib

/-!
Verification of the bank-statement extraction pipeline of the `ledger`
repository: the edge function `process-bank-statement-ai/index.ts` (two
variants of which appear in the repository), the Document Intake component
`StatementUpload.tsx`, the Review/Edit Buffer component
`ExtractedTransactionData`, and the Persistence Writer page
`BankStatementUpload.tsx`.

The embedding follows the TypeScript sources. JavaScript scalar values
reaching a field of a JSON-parsed object are modelled by `JValue`
(JSON.parse produces only null, booleans, numbers, strings, arrays and
objects; composite values in a scalar position and IEEE-754 rounding are
not modelled — amounts are exact rationals, which matches every decimal
literal appearing in the claims). A missing object property is `jUndef`.
-/

inductive JValue where
  | jNull
  | jUndef
  | jBool (b : Bool)
  | jNum (q : ℚ)
  | jStr (s : String)
deriving DecidableEq

/-- JavaScript truthiness of a scalar value: `null`, `undefined`, `false`,
`0` and the empty string are falsy, everything else is truthy. -/
def truthy : JValue → Bool
  | .jNull => false
  | .jUndef => false
  | .jBool b => b
  | .jNum q => if q = 0 then false else true
  | .jStr s => if s = "" then false else true

/-- The JavaScript `x || d` defaulting idiom used throughout the edge
function: keep `x` when truthy, otherwise use the default `d`. -/
def orDefault (v d : JValue) : JValue :=
  if truthy v then v else d

/-- JavaScript `String(x)` on a scalar value. Integer numbers render as
their decimal digits, matching JS; the general double-to-string algorithm
for non-integer numbers is out of scope and rendered as `num/den` (no
claim in this development evaluates it on a non-integer number). -/
def jToString : JValue → String
  | .jNull => "null"
  | .jUndef => "undefined"
  | .jBool true => "true"
  | .jBool false => "false"
  | .jStr s => s
  | .jNum q => if q.den = 1 then toString q.num
               else toString q.num ++ "/" ++ toString q.den

/-- Whitespace skipped by `parseFloat` before the number (the common
ASCII whitespace characters; exotic Unicode whitespace is not modelled). -/
def isWsChar (c : Char) : Bool :=
  c = ' ' || c = '\t' || c = '\n' || c = '\r'

/-- Longest leading run of decimal digits, together with the rest. -/
def takeDigits : List Char → List Char × List Char
  | [] => ([], [])
  | c :: cs =>
    if c.isDigit then
      let p := takeDigits cs
      (c :: p.1, p.2)
    else ([], c :: cs)

/-- Value of a digit string read in base 10. -/
def digitsToNat (ds : List Char) : ℕ :=
  ds.foldl (fun n c => 10 * n + (c.toNat - 48)) 0

/-- Exponent part of a JS float literal: `e`/`E`, an optional sign, and
digits. An exponent marker not followed by a digit contributes nothing,
matching `parseFloat`'s longest-valid-prefix rule. -/
def parseExp : List Char → ℤ
  | [] => 0
  | c :: cs =>
    if c = 'e' || c = 'E' then
      match cs with
      | '-' :: rest =>
        (match takeDigits rest with
         | ([], _) => 0
         | (ds, _) => -(digitsToNat ds : ℤ))
      | '+' :: rest =>
        (match takeDigits rest with
         | ([], _) => 0
         | (ds, _) => (digitsToNat ds : ℤ))
      | rest =>
        (match takeDigits rest with
         | ([], _) => 0
         | (ds, _) => (digitsToNat ds : ℤ))
    else 0

/-- JavaScript `parseFloat` on the characters of a string: skip leading
whitespace, then read the longest prefix of the shape
`[+-]? digits [. digits] [(e|E) [+-] digits]`; `none` models `NaN` (no
valid number prefix). The value `sign * (I + F / 10^f) * 10^e` is
assembled as one exact fraction `mkRat num den`. The `Infinity` literal
is not modelled — no claim in this development depends on it. -/
def parseFloatChars (s : List Char) : Option ℚ :=
  let s1 := s.dropWhile isWsChar
  let neg : Bool := match s1.head? with | some '-' => true | _ => false
  let s2 := match s1 with
    | '-' :: r => r
    | '+' :: r => r
    | r => r
  let ip := takeDigits s2
  let fp : List Char × List Char := match ip.2 with
    | '.' :: r => takeDigits r
    | r => ([], r)
  if ip.1 = [] ∧ fp.1 = [] then none
  else
    let mantNum : ℕ := digitsToNat ip.1 * 10 ^ fp.1.length + digitsToNat fp.1
    let e : ℤ := parseExp fp.2
    let num : ℤ := (if neg then -(mantNum : ℤ) else (mantNum : ℤ)) *
      (if 0 ≤ e then (10 : ℤ) ^ e.toNat else 1)
    let den : ℕ := 10 ^ fp.1.length * (if 0 ≤ e then 1 else 10 ^ (-e).toNat)
    some (mkRat num den)

/-- `parseFloat` applied to a JS scalar value. `parseFloat` converts its
argument to a string first; for a number the round trip
`parseFloat(String(n)) = n` holds for finite doubles and is taken
directly, and every non-numeric scalar stringifies to a word
(`"null"`, `"undefined"`, `"true"`, `"false"`) that parses to `NaN`. -/
def parseFloatJ : JValue → Option ℚ
  | .jNum q => some q
  | .jStr s => parseFloatChars s.toList
  | _ => none

/-- Amount coercion of the first edge-function variant (lines 178-180):
`parseFloat(String(x || 0)) || 0`. -/
def cleanAmount1 (v : JValue) : ℚ :=
  match parseFloatJ (orDefault v (.jNum 0)) with
  | none => 0
  | some q => q

/-- Amount coercion of the second edge-function variant (lines 410-412):
`parseFloat(x) || 0`. -/
def cleanAmount2 (v : JValue) : ℚ :=
  match parseFloatJ v with
  | none => 0
  | some q => q

/-- One raw transaction row as delivered by `JSON.parse` on the model
output (or by the sample fallback): every property is a JS scalar,
`jUndef` when the property is absent. -/
structure RawTransaction where
  date : JValue
  description : JValue
  debitAmount : JValue
  creditAmount : JValue
  balance : JValue
  referenceNumber : JValue
  category : JValue
deriving DecidableEq

/-- One transaction row after the edge function's cleaning map. The
amount fields are numbers; `date` and `category` are whatever JS value
the cleaning produced (the source does not wrap either in `String()`),
and the first variant's `String()`-wrapped fields are stored as `jStr`. -/
structure CleanTransaction where
  date : JValue
  description : JValue
  debitAmount : ℚ
  creditAmount : ℚ
  balance : ℚ
  referenceNumber : JValue
  category : JValue
deriving DecidableEq

/-- The debit/credit mutual-exclusivity step of the first variant
(lines 185-190): if the cleaned debit is positive zero the credit,
else if the cleaned credit is positive zero the debit. -/
def exclusify (c : CleanTransaction) : CleanTransaction :=
  if c.debitAmount > 0 then { c with creditAmount := 0 }
  else if c.creditAmount > 0 then { c with debitAmount := 0 }
  else c

/-- The first variant's per-transaction cleaning map (lines 174-193).
`today` stands for `new Date().toISOString().split('T')[0]` and `index`
is the row index used in the description placeholder. -/
def cleanTransaction (today : String) (index : ℕ) (t : RawTransaction) :
    CleanTransaction :=
  exclusify
    { date := orDefault t.date (.jStr today)
      description := .jStr (jToString (orDefault t.description
        (.jStr ("Transaction " ++ toString (index + 1)))))
      debitAmount := cleanAmount1 t.debitAmount
      creditAmount := cleanAmount1 t.creditAmount
      balance := cleanAmount1 t.balance
      referenceNumber := .jStr (jToString (orDefault t.referenceNumber (.jStr "")))
      category := orDefault t.category (.jStr "other") }

/-- The second variant's per-transaction cleaning map (lines 407-415).
It parses the amounts but has no mutual-exclusivity step and wraps no
field in `String()`. -/
def cleanTransaction2 (today : String) (t : RawTransaction) : CleanTransaction :=
  { date := orDefault t.date (.jStr today)
    description := orDefault t.description (.jStr "Unknown Transaction")
    debitAmount := cleanAmount2 t.debitAmount
    creditAmount := cleanAmount2 t.creditAmount
    balance := cleanAmount2 t.balance
    referenceNumber := orDefault t.referenceNumber (.jStr "")
    category := orDefault t.category (.jStr "other") }

/-- The first variant's `transactions.map((transaction, index) => ...)`:
clean every row, threading the row index. -/
def cleanTransactions (today : String) : ℕ → List RawTransaction → List CleanTransaction
  | _, [] => []
  | i, t :: ts => cleanTransaction today i t :: cleanTransactions today (i + 1) ts

example : parseFloatChars "-5".toList = some (-5) := by decide
example : parseFloatChars "2500.00".toList = some 2500 := by decide
example : parseFloatChars "abc".toList = none := by decide
example : parseFloatChars "1e2".toList = some 100 := by decide
example : parseFloatChars ".5".toList = some (mkRat 1 2) := by decide
example : cleanAmount1 (.jStr "banana") = 0 := by decide
example : cleanAmount1 .jUndef = 0 := by decide

/-- One raw statement as delivered by `JSON.parse` (or by the sample
fallback). `transactions` is `none` when the property is missing or not
an array (the guard `!t || !Array.isArray(t)` treats both alike, since a
JS array is always truthy); `statementPeriod` is `none` when missing or
falsy, and otherwise carries the object's `from`/`to` properties. -/
structure RawStatement where
  accountNumber : JValue
  bankName : JValue
  statementPeriod : Option (JValue × JValue)
  openingBalance : JValue
  closingBalance : JValue
  transactions : Option (List RawTransaction)
deriving DecidableEq

/-- The first variant's statement shape after validation (lines 168-206):
the balances are `String()`-wrapped, the period is always present, and
the remaining top-level fields keep whatever JS value defaulting left. -/
structure CleanStatement1 where
  accountNumber : JValue
  bankName : JValue
  openingBalance : String
  closingBalance : String
  periodFrom : JValue
  periodTo : JValue
  transactions : List CleanTransaction
deriving DecidableEq

/-- The second variant's statement shape after validation (lines 401-415):
only `transactions` is touched; every top-level field passes through. -/
structure CleanStatement2 where
  accountNumber : JValue
  bankName : JValue
  statementPeriod : Option (JValue × JValue)
  openingBalance : JValue
  closingBalance : JValue
  transactions : List CleanTransaction
deriving DecidableEq

/-- The first variant's post-parse validation and cleaning (lines
168-206): replace a missing/non-array `transactions` with `[]`, clean
every row, then default the top-level fields. `today` and `thirtyAgo`
stand for the two `toISOString().split('T')[0]` dates. -/
def normalizeStatement1 (today thirtyAgo : String) (s : RawStatement) :
    CleanStatement1 :=
  { accountNumber := orDefault s.accountNumber (.jStr "UNKNOWN")
    bankName := orDefault s.bankName (.jStr "Unknown Bank")
    openingBalance := jToString (orDefault s.openingBalance (.jStr "0"))
    closingBalance := jToString (orDefault s.closingBalance (.jStr "0"))
    periodFrom := match s.statementPeriod with
      | some p => p.1
      | none => .jStr thirtyAgo
    periodTo := match s.statementPeriod with
      | some p => p.2
      | none => .jStr today
    transactions := cleanTransactions today 0 (s.transactions.getD []) }

/-- The second variant's post-parse validation and cleaning (lines
401-415): replace a missing/non-array `transactions` with `[]` and clean
every row; no top-level defaulting exists in this variant. -/
def normalizeStatement2 (today : String) (s : RawStatement) : CleanStatement2 :=
  { accountNumber := s.accountNumber
    bankName := s.bankName
    statementPeriod := s.statementPeriod
    openingBalance := s.openingBalance
    closingBalance := s.closingBalance
    transactions := (s.transactions.getD []).map (cleanTransaction2 today) }

/-- The HTTP response of the edge function: `{success: true,
extractedData}` or `{success: false, error}` from the catch block. -/
inductive GatewayResponse (α : Type) where
  | success (extractedData : α)
  | failure (error : String)
deriving DecidableEq

/-- The first variant's happy path after a successful `JSON.parse`: the
validation code contains no failure exit, so the response is always
`success` of the cleaned statement. -/
def gatewayRespond1 (today thirtyAgo : String) (s : RawStatement) :
    GatewayResponse CleanStatement1 :=
  .success (normalizeStatement1 today thirtyAgo s)

/-- The second variant's happy path after a successful `JSON.parse`. -/
def gatewayRespond2 (today : String) (s : RawStatement) :
    GatewayResponse CleanStatement2 :=
  .success (normalizeStatement2 today s)

/-- The first variant's sample fallback record (lines 136-165), used when
no `imageBase64` is supplied. -/
def sampleStatement1 (today thirtyAgo : String) : RawStatement :=
  { accountNumber := .jStr "SAMPLE1234"
    bankName := .jStr "Sample Bank"
    statementPeriod := some (.jStr thirtyAgo, .jStr today)
    openingBalance := .jStr "50000.00"
    closingBalance := .jStr "45000.00"
    transactions := some
      [ { date := .jStr today
          description := .jStr "SAMPLE - HP PETROL PUMP MUMBAI"
          debitAmount := .jNum 2500
          creditAmount := .jNum 0
          balance := .jNum 47500
          referenceNumber := .jStr "SAMPLE123456"
          category := .jStr "fuel_expense" }
      , { date := .jStr today
          description := .jStr "SAMPLE - OFFICE RENT PAYMENT"
          debitAmount := .jNum 25000
          creditAmount := .jNum 0
          balance := .jNum 22500
          referenceNumber := .jStr "SAMPLE789012"
          category := .jStr "rent_expense" } ] }

/-- The second variant's sample fallback record (lines 342-398); its
amounts are strings and none of its descriptions carries a SAMPLE tag. -/
def sampleStatement2 (today thirtyAgo : String) : RawStatement :=
  { accountNumber := .jStr "XXXX1234"
    bankName := .jStr "Sample Bank"
    statementPeriod := some (.jStr thirtyAgo, .jStr today)
    openingBalance := .jStr "50000.00"
    closingBalance := .jStr "45000.00"
    transactions := some
      [ { date := .jStr today
          description := .jStr "HP PETROL PUMP MUMBAI"
          debitAmount := .jStr "2500.00"
          creditAmount := .jStr "0"
          balance := .jStr "47500.00"
          referenceNumber := .jStr "TXN123456"
          category := .jStr "fuel_expense" }
      , { date := .jStr today
          description := .jStr "OFFICE RENT PAYMENT"
          debitAmount := .jStr "25000.00"
          creditAmount := .jStr "0"
          balance := .jStr "22500.00"
          referenceNumber := .jStr "CHQ789012"
          category := .jStr "rent_expense" }
      , { date := .jStr today
          description := .jStr "CLIENT PAYMENT RECEIVED"
          debitAmount := .jStr "0"
          creditAmount := .jStr "50000.00"
          balance := .jStr "72500.00"
          referenceNumber := .jStr "NEFT345678"
          category := .jStr "sales_income" }
      , { date := .jStr today
          description := .jStr "ELECTRICITY BILL MSEB"
          debitAmount := .jStr "3500.00"
          creditAmount := .jStr "0"
          balance := .jStr "69000.00"
          referenceNumber := .jStr "AUTO901234"
          category := .jStr "utilities_expense" }
      , { date := .jStr today
          description := .jStr "CONSTRUCTION MATERIAL PURCHASE"
          debitAmount := .jStr "15000.00"
          creditAmount := .jStr "0"
          balance := .jStr "54000.00"
          referenceNumber := .jStr "CHQ567890"
          category := .jStr "construction_expense" } ] }

/-- The first variant's response when no `imageBase64` is supplied: the
sample record goes through the same validation and the model is never
contacted (this path is a closed term with no model-output argument). -/
def processNoImage1 (today thirtyAgo : String) : GatewayResponse CleanStatement1 :=
  gatewayRespond1 today thirtyAgo (sampleStatement1 today thirtyAgo)

/-- The second variant's response when no `imageBase64` is supplied. -/
def processNoImage2 (today thirtyAgo : String) : GatewayResponse CleanStatement2 :=
  gatewayRespond2 today (sampleStatement2 today thirtyAgo)

/-- The closed category set of the prompt and of `categoryOptions` in
`ExtractedTransactionData` (the two lists agree). -/
def categoryEnum : List String :=
  [ "travel_expense", "fuel_expense", "office_expense", "construction_expense"
  , "material_expense", "salary_expense", "rent_expense", "utilities_expense"
  , "professional_fees", "marketing_expense", "maintenance_expense"
  , "insurance_expense", "sales_income", "service_income", "other_income"
  , "cgst_payable", "sgst_payable", "igst_payable", "cgst_receivable"
  , "sgst_receivable", "igst_receivable", "accounts_payable"
  , "accounts_receivable", "cash", "bank", "other" ]

/-- Opening curly brace character. -/
def obr : Char := Char.ofNat 123

/-- Closing curly brace character. -/
def cbr : Char := Char.ofNat 125

/-- Drop characters until the first occurrence of `b` (kept), the empty
list when `b` does not occur. -/
def dropUntil (b : Char) : List Char → List Char
  | [] => []
  | c :: cs => if c = b then c :: cs else dropUntil b cs

/-- The candidate JSON string `generatedText.match(/\x7b[\s\S]*\x7d/)`
of both variants (lines 119 and 328). The regex is greedy: the leftmost
match runs from the first opening brace to the last closing brace of the
whole text, and fails when no closing brace follows the first opening
brace. -/
def jsonMatch (s : List Char) : Option (List Char) :=
  let t := dropUntil obr s
  let u := (dropUntil cbr t.reverse).reverse
  if u = [] then none else some u

/-- Depth-counting scan used by `specFirstBalanced`: consume characters,
tracking brace depth, and return everything consumed up to the closing
brace that balances the first opening brace. -/
def scanBalanced : List Char → ℕ → List Char → Option (List Char)
  | [], _, _ => none
  | c :: cs, d, acc =>
    if c = obr then scanBalanced cs (d + 1) (acc ++ [c])
    else if c = cbr then
      if d ≤ 1 then some (acc ++ [c]) else scanBalanced cs (d - 1) (acc ++ [c])
    else scanBalanced cs d (acc ++ [c])

/-- Modelled from the spec words, for comparison with `jsonMatch`: the
first balanced brace-delimited substring of the text ("locate the first
balanced `\x7b...\x7d` substring as the candidate JSON"). -/
def specFirstBalanced (s : List Char) : Option (List Char) :=
  match dropUntil obr s with
  | [] => none
  | t => scanBalanced t 0 []

/-- Decides whether `pat` is an initial segment of `s`. -/
def leadsList (pat s : List Char) : Bool :=
  match pat, s with
  | [], _ => true
  | _ :: _, [] => false
  | p :: ps, c :: cs => p = c && leadsList ps cs

/-- Decides whether `pat` occurs contiguously inside `s`; this is the
`String.prototype.includes` check the client uses to detect sample
data (`description?.includes('SAMPLE')`). -/
def containsSub (pat : List Char) : List Char → Bool
  | [] => leadsList pat []
  | c :: cs => leadsList pat (c :: cs) || containsSub pat cs

/-- Whether a JS value is a string containing the `SAMPLE` marker. -/
def containsSample (v : JValue) : Bool :=
  match v with
  | .jStr s => containsSub "SAMPLE".toList s.toList
  | _ => false

example : containsSample (.jStr "SAMPLE1234") = true := by decide
example : containsSample (.jStr "HP PETROL PUMP MUMBAI") = false := by decide
example : jsonMatch [obr, 'a', cbr, ' ', obr, 'b', cbr]
    = some [obr, 'a', cbr, ' ', obr, 'b', cbr] := by decide
example : specFirstBalanced [obr, 'a', cbr, ' ', obr, 'b', cbr]
    = some [obr, 'a', cbr] := by decide

/-- The relevant attributes of a browser `File` object. -/
structure FileInfo where
  name : String
  size : ℕ
  mime : String
deriving DecidableEq

/-- `allowedTypes` of `handleFileSelect` in `StatementUpload.tsx`
(line 24). -/
def allowedTypes : List String :=
  ["image/jpeg", "image/png", "image/jpg", "application/pdf"]

/-- `maxSize` of `handleFileSelect` (line 23): 10 MiB. -/
def fileMaxSize : ℕ := 10 * 1024 * 1024

/-- The component state `handleFileSelect` touches: the selected file and
the destructive toasts it has reported. -/
structure UploadState where
  selectedFile : Option FileInfo
  toasts : List String
deriving DecidableEq

/-- `handleFileSelect` (lines 22-45): report and keep the state when the
file is oversized or of a disallowed MIME type, otherwise select it. The
function is total — each rejection reports a toast and returns. -/
def handleFileSelect (st : UploadState) (f : FileInfo) : UploadState :=
  if fileMaxSize < f.size then
    { st with toasts := st.toasts ++ ["File too large"] }
  else if allowedTypes.contains f.mime = false then
    { st with toasts := st.toasts ++ ["Invalid file type"] }
  else
    { st with selectedFile := some f }

/-- The file `processWithAI` (lines 76-109) forwards to the extraction
gateway: the guard `if (!selectedFile || !user) return` makes the AI call
unreachable unless a file is selected and a user is signed in. -/
def processWithAISends (st : UploadState) (user : Option String) :
    Option FileInfo :=
  match st.selectedFile, user with
  | some f, some _ => some f
  | _, _ => none

/-- The Review/Edit Buffer transaction row, the `Transaction` interface
of `ExtractedTransactionData` (and of `BankStatementUpload.tsx`). -/
structure Transaction where
  date : String
  description : String
  debitAmount : ℚ
  creditAmount : ℚ
  balance : ℚ
  referenceNumber : String
  category : String
deriving DecidableEq

/-- The Review/Edit Buffer statement, the `ExtractedStatementData`
interface. -/
structure ExtractedStatementData where
  accountNumber : String
  bankName : String
  periodFrom : String
  periodTo : String
  openingBalance : String
  closingBalance : String
  transactions : List Transaction
deriving DecidableEq

/-- The seven transaction field names `handleTransactionChange` is called
with. -/
inductive TField where
  | date | description | debitAmount | creditAmount | balance
  | referenceNumber | category
deriving DecidableEq

/-- A field value handed to `handleTransactionChange`: the component
passes strings for the text fields and numbers for the amount fields. -/
inductive FValue where
  | str (s : String)
  | num (q : ℚ)
deriving DecidableEq

/-- Whether a value's kind matches the declared type of the field — every
call site of `handleTransactionChange` in the component satisfies this. -/
def kindOK : TField → FValue → Bool
  | .date, .str _ => true
  | .description, .str _ => true
  | .referenceNumber, .str _ => true
  | .category, .str _ => true
  | .debitAmount, .num _ => true
  | .creditAmount, .num _ => true
  | .balance, .num _ => true
  | _, _ => false

/-- Read one field of a buffer transaction. -/
def getField (t : Transaction) : TField → FValue
  | .date => .str t.date
  | .description => .str t.description
  | .debitAmount => .num t.debitAmount
  | .creditAmount => .num t.creditAmount
  | .balance => .num t.balance
  | .referenceNumber => .str t.referenceNumber
  | .category => .str t.category

/-- The spread-update `{...t, [field]: value}` of
`handleTransactionChange` (line 356), restricted to type-correct values
(a kind mismatch, which no call site produces, leaves the row as is). -/
def setField (t : Transaction) : TField → FValue → Transaction
  | .date, .str s => { t with date := s }
  | .description, .str s => { t with description := s }
  | .referenceNumber, .str s => { t with referenceNumber := s }
  | .category, .str s => { t with category := s }
  | .debitAmount, .num q => { t with debitAmount := q }
  | .creditAmount, .num q => { t with creditAmount := q }
  | .balance, .num q => { t with balance := q }
  | _, _ => t

/-- `handleTransactionChange` (lines 354-358): copy the transaction
array, replace the row at `index` by its spread-update, and commit a
statement with the new array and all other statement fields kept. An
out-of-range index (which the rendered rows never produce) leaves the
list unchanged. -/
def handleTransactionChange (d : ExtractedStatementData) (index : ℕ)
    (field : TField) (value : FValue) : ExtractedStatementData :=
  match d.transactions[index]? with
  | some t => { d with transactions := d.transactions.set index (setField t field value) }
  | none => d

/-- `addTransaction` (lines 360-373): append a blank row dated today with
zeroed amounts and category `other`. -/
def addTransaction (today : String) (d : ExtractedStatementData) :
    ExtractedStatementData :=
  { d with transactions := d.transactions ++
      [{ date := today, description := "", debitAmount := 0, creditAmount := 0
         balance := 0, referenceNumber := "", category := "other" }] }

/-- `removeTransaction` (lines 375-380): drop the row at `index` by
filtering on position. -/
def removeTransaction (d : ExtractedStatementData) (index : ℕ) :
    ExtractedStatementData :=
  { d with transactions :=
      ((d.transactions.enum.filter (fun p => p.1 ≠ index)).map (fun p => p.2)) }

/-- The `bank_statements` header row inserted by `handleSaveTransactions`
(lines 92-102). -/
structure StatementHeaderRow where
  user_id : String
  file_name : String
  file_path : String
  processed : Bool
  processed_at : String
deriving DecidableEq

/-- One `bank_transactions` row of the bulk insert (lines 109-123). -/
structure BankTransactionRow where
  statement_id : String
  user_id : String
  transaction_date : String
  description : String
  debit_amount : ℚ
  credit_amount : ℚ
  balance : ℚ
  reference_number : String
  category : String
deriving DecidableEq

/-- A derived ledger entry (glossary: date, amount, category, debit/credit
type, owner-scoped). -/
structure LedgerEntry where
  owner : String
  date : String
  amount : ℚ
  category : String
  isDebit : Bool
deriving DecidableEq

/-- Modelled from the spec: `createBankTransactionLedgerEntries` lives in
`src/utils/ledgerUtils.ts`, which is not part of this repository
snapshot. The spec says the writer makes one derivation call per
transaction, each deriving an amount-signed, categorized, owner-scoped
ledger entry, and its end-to-end property says one transaction yields
exactly one ledger entry referencing the same owner, so the call is
modelled as producing exactly one entry for the given owner. -/
def createBankTransactionLedgerEntries (t : Transaction) (userId : String) :
    List LedgerEntry :=
  [{ owner := userId
     date := t.date
     amount := if t.debitAmount > 0 then t.debitAmount else t.creditAmount
     category := t.category
     isDebit := t.debitAmount > 0 }]

/-- Everything `handleSaveTransactions` writes on its success path, in
write order: the header insert, the bulk transaction insert, then the
per-transaction ledger derivation calls. -/
structure SaveResult where
  headers : List StatementHeaderRow
  txRows : List BankTransactionRow
  ledger : List LedgerEntry
deriving DecidableEq

/-- `handleSaveTransactions` of `BankStatementUpload.tsx` (lines 85-153)
on its success path. `now` stands for `Date.now()` and `nowIso` for
`new Date().toISOString()`; `statementId` is the identifier the store
generates for the header row and returns through `.select().single()`.
The guard `if (!extractedData || !user) return` yields `none` (no
writes). -/
def handleSaveTransactions (extractedData : Option ExtractedStatementData)
    (user : Option String) (now nowIso statementId : String) :
    Option SaveResult :=
  match extractedData, user with
  | some d, some userId =>
    some
      { headers := [{ user_id := userId
                      file_name := "AI_Processed_Statement_" ++ now ++ ".pdf"
                      file_path := "statements/" ++ userId ++ "/ai_processed_" ++ now ++ ".pdf"
                      processed := true
                      processed_at := nowIso }]
        txRows := d.transactions.map (fun t =>
          { statement_id := statementId
            user_id := userId
            transaction_date := t.date
            description := t.description
            debit_amount := t.debitAmount
            credit_amount := t.creditAmount
            balance := t.balance
            reference_number := t.referenceNumber
            category := t.category })
        ledger := d.transactions.flatMap
          (fun t => createBankTransactionLedgerEntries t userId) }
  | _, _ => none

/-- The mutual-exclusivity step really is exclusive: whichever branch
runs, a positive debit forces a zero credit and a positive credit forces
a zero debit. -/
theorem exclusify_exclusive (c : CleanTransaction) :
    (0 < (exclusify c).debitAmount → (exclusify c).creditAmount = 0) ∧
    (0 < (exclusify c).creditAmount → (exclusify c).debitAmount = 0) := by
  unfold exclusify
  split_ifs with h1 h2 <;> constructor <;> intro h <;> simp_all

/-- Every row produced by the first variant's cleaning map is the image
of some raw row under `cleanTransaction`. -/
theorem mem_cleanTransactions {today : String} :
    ∀ {i : ℕ} {ts : List RawTransaction} {c : CleanTransaction},
      c ∈ cleanTransactions today i ts → ∃ j t, c = cleanTransaction today j t := by
  intro i ts
  induction ts generalizing i with
  | nil => intro c h; simp [cleanTransactions] at h
  | cons t ts ih =>
    intro c h
    rcases (by simpa [cleanTransactions] using h : c = cleanTransaction today i t ∨
        c ∈ cleanTransactions today (i + 1) ts) with h | h
    · exact ⟨i, t, h⟩
    · exact ih h

/-- A raw row with debit 5 and credit 3, both present and positive. -/
def txBoth53 : RawTransaction :=
  { date := .jUndef, description := .jUndef, debitAmount := .jStr "5"
    creditAmount := .jStr "3", balance := .jUndef
    referenceNumber := .jUndef, category := .jUndef }

/-- A raw row whose debit (5) is smaller than its credit (100). -/
def txDeb5Cred100 : RawTransaction :=
  { date := .jUndef, description := .jUndef, debitAmount := .jStr "5"
    creditAmount := .jStr "100", balance := .jUndef
    referenceNumber := .jUndef, category := .jUndef }

/-- A raw row with a negative debit amount. -/
def txNegDebit : RawTransaction :=
  { date := .jUndef, description := .jUndef, debitAmount := .jStr "-5"
    creditAmount := .jStr "0", balance := .jUndef
    referenceNumber := .jUndef, category := .jUndef }

/-- A raw row whose category is a non-empty string outside the enum. -/
def txBananaCat : RawTransaction :=
  { date := .jUndef, description := .jUndef, debitAmount := .jStr "5"
    creditAmount := .jStr "0", balance := .jUndef
    referenceNumber := .jUndef, category := .jStr "banana" }

/-- A raw row whose amount fields all fail numeric parsing. -/
def txUnparsable : RawTransaction :=
  { date := .jUndef, description := .jUndef, debitAmount := .jStr "abc"
    creditAmount := .jUndef, balance := .jNull
    referenceNumber := .jUndef, category := .jUndef }

/-- A raw statement carrying exactly the given rows and nothing else. -/
def rawWith (ts : List RawTransaction) : RawStatement :=
  { accountNumber := .jUndef, bankName := .jUndef, statementPeriod := none
    openingBalance := .jUndef, closingBalance := .jUndef
    transactions := some ts }

/-- C1: after the first variant's normalization, every transaction row of
the returned statement satisfies `debitAmount > 0 → creditAmount = 0` and
`creditAmount > 0 → debitAmount = 0`, for every raw model output. (The
claim as stated also covers the second variant, where it fails — see the
counterexample — because that variant has no exclusivity step.) -/
theorem c1_exclusive_after_normalize1 (today thirtyAgo : String)
    (s : RawStatement) :
    ∀ c ∈ (normalizeStatement1 today thirtyAgo s).transactions,
      (0 < c.debitAmount → c.creditAmount = 0) ∧
      (0 < c.creditAmount → c.debitAmount = 0) := by
  intro c hc
  obtain ⟨j, t, rfl⟩ := mem_cleanTransactions hc
  exact exclusify_exclusive _

/-- Witness for C1: the row cleaned from `txBoth53` sits in a normalized
statement and satisfies the exclusivity property there. -/
theorem c1_witness :
    (0 < (cleanTransaction "2024-01-05" 0 txBoth53).debitAmount →
      (cleanTransaction "2024-01-05" 0 txBoth53).creditAmount = 0) ∧
    (0 < (cleanTransaction "2024-01-05" 0 txBoth53).creditAmount →
      (cleanTransaction "2024-01-05" 0 txBoth53).debitAmount = 0) :=
  c1_exclusive_after_normalize1 "2024-01-05" "2023-12-06" (rawWith [txBoth53])
    (cleanTransaction "2024-01-05" 0 txBoth53) (by decide)

/-- Counterexample for C1: the second variant returns a statement whose
only row has debit 5 and credit 3, both positive, violating the claimed
invariant. -/
theorem c1_counterexample :
    ∃ c, (normalizeStatement2 "2024-01-05" (rawWith [txBoth53])).transactions = [c] ∧
      0 < c.debitAmount ∧ 0 < c.creditAmount ∧ c.creditAmount ≠ 0 :=
  ⟨_, rfl, by decide, by decide, by decide⟩

/-- C2 (amended): both variants replace the category by `other` exactly
when the raw category is falsy (missing, null, empty); a truthy raw
category — even one outside the closed enum — is passed through
unchanged. -/
theorem c2_category_default_only_when_falsy (today : String) (index : ℕ)
    (t : RawTransaction) :
    (cleanTransaction today index t).category
        = (if truthy t.category then t.category else .jStr "other") ∧
    (cleanTransaction2 today t).category
        = (if truthy t.category then t.category else .jStr "other") := by
  unfold cleanTransaction cleanTransaction2 exclusify orDefault
  split_ifs <;> simp_all

/-- Counterexample for C2: a raw category `banana`, outside the enum,
survives even the first variant's normalization, so normalized rows are
not confined to the enum. -/
theorem c2_counterexample :
    (cleanTransaction "2024-01-05" 0 txBananaCat).category = .jStr "banana" ∧
    categoryEnum.contains "banana" = false := by decide

/-- C5 (amended): in both variants an amount field that fails numeric
parsing — including a missing field — is coerced to exactly 0. (The
claimed non-negativity fails: a raw amount that parses to a negative
number is kept — see the counterexample.) -/
theorem c5_zero_on_parse_failure (today : String) (index : ℕ)
    (t : RawTransaction) :
    (parseFloatJ t.debitAmount = none →
      (cleanTransaction today index t).debitAmount = 0 ∧
      (cleanTransaction2 today t).debitAmount = 0) ∧
    (parseFloatJ t.creditAmount = none →
      (cleanTransaction today index t).creditAmount = 0 ∧
      (cleanTransaction2 today t).creditAmount = 0) ∧
    (parseFloatJ t.balance = none →
      (cleanTransaction today index t).balance = 0 ∧
      (cleanTransaction2 today t).balance = 0) := by
  have amt1 : ∀ v, parseFloatJ v = none → cleanAmount1 v = 0 := by
    intro v hv
    unfold cleanAmount1 orDefault
    split_ifs with h
    · simp [hv]
    · cases v <;> simp_all [truthy, parseFloatJ]
  have amt2 : ∀ v, parseFloatJ v = none → cleanAmount2 v = 0 := by
    intro v hv; unfold cleanAmount2; simp [hv]
  unfold cleanTransaction cleanTransaction2 exclusify
  refine ⟨fun h => ?_, fun h => ?_, fun h => ?_⟩ <;>
    split_ifs <;> simp_all [amt1 _ h, amt2 _ h]

/-- Witness for C5: every amount field of `txUnparsable` fails parsing
and each cleaned amount is exactly 0, in both variants. -/
theorem c5_witness :
    (cleanTransaction "2024-01-05" 0 txUnparsable).debitAmount = 0 ∧
    (cleanTransaction2 "2024-01-05" txUnparsable).debitAmount = 0 ∧
    (cleanTransaction "2024-01-05" 0 txUnparsable).creditAmount = 0 ∧
    (cleanTransaction2 "2024-01-05" txUnparsable).creditAmount = 0 ∧
    (cleanTransaction "2024-01-05" 0 txUnparsable).balance = 0 ∧
    (cleanTransaction2 "2024-01-05" txUnparsable).balance = 0 := by
  have h := c5_zero_on_parse_failure "2024-01-05" 0 txUnparsable
  obtain ⟨h1, h2, h3⟩ := h
  obtain ⟨a1, a2⟩ := h1 (by decide)
  obtain ⟨b1, b2⟩ := h2 (by decide)
  obtain ⟨c1, c2⟩ := h3 (by decide)
  exact ⟨a1, a2, b1, b2, c1, c2⟩

/-- Counterexample for C5: a raw debit of `"-5"` parses to the negative
number −5, which normalization keeps, so normalized amounts are not
guaranteed non-negative. -/
theorem c5_counterexample :
    (cleanTransaction "2024-01-05" 0 txNegDebit).debitAmount < 0 := by decide

/-- C9 (amended): when the parsed debit is positive the first variant
zeroes the credit and keeps the debit, regardless of which amount is
larger; only when the parsed debit is not positive and the parsed credit
is positive does it zero the debit and keep the credit. -/
theorem c9_zeroes_credit_when_debit_positive (today : String) (index : ℕ)
    (t : RawTransaction) :
    (0 < cleanAmount1 t.debitAmount →
      (cleanTransaction today index t).debitAmount = cleanAmount1 t.debitAmount ∧
      (cleanTransaction today index t).creditAmount = 0) ∧
    (¬ 0 < cleanAmount1 t.debitAmount → 0 < cleanAmount1 t.creditAmount →
      (cleanTransaction today index t).debitAmount = 0 ∧
      (cleanTransaction today index t).creditAmount = cleanAmount1 t.creditAmount) := by
  unfold cleanTransaction exclusify
  constructor
  · intro h; split_ifs <;> simp_all
  · intro h h2; split_ifs <;> simp_all

/-- Witness for C9: for debit 5 and credit 100 the positive-debit branch
applies, keeping 5 and zeroing 100. -/
theorem c9_witness :
    (cleanTransaction "2024-01-05" 0 txDeb5Cred100).debitAmount
        = cleanAmount1 txDeb5Cred100.debitAmount ∧
    (cleanTransaction "2024-01-05" 0 txDeb5Cred100).creditAmount = 0 :=
  (c9_zeroes_credit_when_debit_positive "2024-01-05" 0 txDeb5Cred100).1 (by decide)

/-- Counterexample for C9: with parsed debit 5 and parsed credit 100 the
claim demands the smaller field (the debit) be zeroed and the larger
(credit 100) kept, but the code keeps debit 5 and zeroes the credit. -/
theorem c9_counterexample :
    cleanAmount1 txDeb5Cred100.debitAmount = 5 ∧
    cleanAmount1 txDeb5Cred100.creditAmount = 100 ∧
    (cleanTransaction "2024-01-05" 0 txDeb5Cred100).debitAmount = 5 ∧
    (cleanTransaction "2024-01-05" 0 txDeb5Cred100).creditAmount = 0 ∧
    ¬ ((cleanTransaction "2024-01-05" 0 txDeb5Cred100).debitAmount = 0 ∧
       (cleanTransaction "2024-01-05" 0 txDeb5Cred100).creditAmount = 100) := by
  decide

/-- C3 (amended): with no document supplied, the first variant returns —
without any model-output argument, so independently of the external
model — a success record whose account number and whose first
transaction description both contain the `SAMPLE` marker the client
checks for. (The claim as stated also covers the second variant, whose
sample record carries no `SAMPLE` marker — see the counterexample.) -/
theorem c3_sample_markers_variant1 (today thirtyAgo : String) :
    ∃ d, processNoImage1 today thirtyAgo = .success d ∧
      containsSample d.accountNumber = true ∧
      (d.transactions.head?.map (fun c => containsSample c.description))
        = some true :=
  ⟨_, rfl, rfl, rfl⟩

/-- Counterexample for C3: the second variant's no-document record has
account number `XXXX1234` and first description `HP PETROL PUMP MUMBAI`,
neither of which contains the `SAMPLE` marker, so the client's
`includes('SAMPLE')` check cannot distinguish it from real output. -/
theorem c3_counterexample :
    ∃ d, processNoImage2 "2024-01-05" "2023-12-06" = .success d ∧
      containsSample d.accountNumber = false ∧
      (d.transactions.head?.map (fun c => containsSample c.description))
        = some false :=
  ⟨_, rfl, by decide, by decide⟩

/-- Prefix of `dropUntil`: characters before the first occurrence of the
target are dropped wholesale. -/
theorem dropUntil_append_of_not_mem (b : Char) (pre x : List Char)
    (h : ∀ c ∈ pre, c ≠ b) : dropUntil b (pre ++ x) = dropUntil b x := by
  induction pre with
  | nil => rfl
  | cons c cs ih =>
    have hc : ¬ c = b := h c (by simp)
    simp only [List.cons_append, dropUntil, if_neg hc]
    exact ih (fun c2 hc2 => h c2 (by simp [hc2]))

/-- `dropUntil` keeps the list whose head is the target. -/
theorem dropUntil_cons_self (b : Char) (x : List Char) :
    dropUntil b (b :: x) = b :: x := by simp [dropUntil]

/-- C4 (amended): the candidate handed to `JSON.parse` is the greedy
regex match from the first opening brace to the last closing brace of
the model text. Brace-free prose before and after one brace-delimited
chunk is tolerated — the candidate is exactly that chunk — but when
further closing braces follow the first balanced object the candidate
extends to the last closing brace instead of stopping at the first
balanced object (see the counterexample). -/
theorem c4_greedy_candidate (pre mid post : List Char)
    (hpre : ∀ c ∈ pre, c ≠ obr) (hpost : ∀ c ∈ post, c ≠ cbr) :
    jsonMatch (pre ++ (obr :: (mid ++ [cbr])) ++ post)
        = some (obr :: (mid ++ [cbr])) := by
  simp only [jsonMatch]
  have h1 : dropUntil obr (pre ++ (obr :: (mid ++ [cbr])) ++ post)
      = (obr :: (mid ++ [cbr])) ++ post := by
    rw [List.append_assoc, dropUntil_append_of_not_mem obr pre _ hpre]
    exact dropUntil_cons_self obr _
  rw [h1]
  have h2 : ((obr :: (mid ++ [cbr])) ++ post).reverse
      = post.reverse ++ (cbr :: (mid.reverse ++ [obr])) := by
    simp
  rw [h2]
  have h3 : dropUntil cbr (post.reverse ++ (cbr :: (mid.reverse ++ [obr])))
      = cbr :: (mid.reverse ++ [obr]) := by
    rw [dropUntil_append_of_not_mem cbr post.reverse _
      (fun c hc => hpost c (List.mem_reverse.mp hc))]
    exact dropUntil_cons_self cbr _
  rw [h3]
  simp

/-- Witness for C4: prose around a single braced chunk is stripped and
exactly the chunk is the candidate. -/
theorem c4_witness :
    jsonMatch (['x', ' '] ++ (obr :: (['a'] ++ [cbr])) ++ [' ', 'y'])
        = some (obr :: (['a'] ++ [cbr])) :=
  c4_greedy_candidate ['x', ' '] ['a'] [' ', 'y'] (by decide) (by decide)

/-- Counterexample for C4: on a text holding a balanced object followed
by a second braced chunk, the code's candidate is the whole span to the
last closing brace, not the first balanced object the claim promises. -/
theorem c4_counterexample :
    jsonMatch [obr, 'a', cbr, ' ', obr, 'b', cbr]
        = some [obr, 'a', cbr, ' ', obr, 'b', cbr] ∧
    specFirstBalanced [obr, 'a', cbr, ' ', obr, 'b', cbr] = some [obr, 'a', cbr] ∧
    jsonMatch [obr, 'a', cbr, ' ', obr, 'b', cbr]
        ≠ specFirstBalanced [obr, 'a', cbr, ' ', obr, 'b', cbr] := by decide

/-- C6: a selected file that is oversized or has a disallowed MIME type
is reported through a toast without throwing (the handler is total and
returns a state), the selected-file state is unchanged, the file the
processing step would forward is unchanged, and the rejected file itself
is never forwarded to the extraction gateway. -/
theorem c6_rejected_file_never_reaches_gateway (st : UploadState) (f : FileInfo)
    (hrej : fileMaxSize < f.size ∨ allowedTypes.contains f.mime = false) :
    (handleFileSelect st f).selectedFile = st.selectedFile ∧
    (handleFileSelect st f).toasts.length = st.toasts.length + 1 ∧
    (∀ u, processWithAISends (handleFileSelect st f) u = processWithAISends st u) ∧
    (st.selectedFile ≠ some f →
      ∀ u, processWithAISends (handleFileSelect st f) u ≠ some f) := by
  have hstate : handleFileSelect st f
        = { st with toasts := st.toasts ++ ["File too large"] } ∨
      handleFileSelect st f
        = { st with toasts := st.toasts ++ ["Invalid file type"] } := by
    unfold handleFileSelect
    split_ifs with h1 h2
    · exact Or.inl rfl
    · exact Or.inr rfl
    · rcases hrej with h | h
      · exact absurd h h1
      · simp_all
  rcases hstate with h | h <;>
  · rw [h]
    refine ⟨rfl, by simp, fun u => ?_, fun hne u => ?_⟩
    · cases hsf : st.selectedFile <;> cases u <;>
        simp [processWithAISends, hsf]
    · cases hsf : st.selectedFile <;> cases u <;>
        simp_all [processWithAISends, hsf]

/-- Witness for C6: a 10 MiB + 1 byte PDF is rejected, the selection
stays empty, and nothing is forwarded even with a signed-in user. -/
theorem c6_witness :
    (handleFileSelect ⟨none, []⟩ ⟨"big.pdf", 10485761, "application/pdf"⟩).selectedFile
        = none ∧
    processWithAISends (handleFileSelect ⟨none, []⟩ ⟨"big.pdf", 10485761, "application/pdf"⟩)
        (some "user-1") ≠ some ⟨"big.pdf", 10485761, "application/pdf"⟩ := by
  have h := c6_rejected_file_never_reaches_gateway ⟨none, []⟩
    ⟨"big.pdf", 10485761, "application/pdf"⟩ (Or.inl (by decide))
  exact ⟨h.1, h.2.2.2 (by decide) (some "user-1")⟩

/-- A list of singleton blocks flattens to one element per input. -/
theorem length_flatMap_singleton {α β : Type} (l : List α) (f : α → List β)
    (h : ∀ a, (f a).length = 1) : (l.flatMap f).length = l.length := by
  induction l with
  | nil => rfl
  | cons a l ih =>
    simp only [List.flatMap_cons, List.length_append, List.length_cons, h a, ih]
    omega

/-- C7: on confirmation with a statement of N transactions and a
signed-in user, the writer produces exactly one header row marked
processed for that user, N transaction rows each carrying the header's
generated identifier and the user's id, and one ledger-derivation call
per transaction each yielding an entry owned by the same user; a
one-transaction statement yields exactly one transaction row and one
ledger entry. -/
theorem c7_persistence_trace (userId now nowIso statementId : String)
    (d : ExtractedStatementData) :
    ∃ r, handleSaveTransactions (some d) (some userId) now nowIso statementId
        = some r ∧
      r.headers.length = 1 ∧
      (∀ h ∈ r.headers, h.processed = true ∧ h.user_id = userId) ∧
      r.txRows.length = d.transactions.length ∧
      (∀ row ∈ r.txRows, row.statement_id = statementId ∧ row.user_id = userId) ∧
      r.ledger.length = d.transactions.length ∧
      (∀ e ∈ r.ledger, e.owner = userId) ∧
      (d.transactions.length = 1 → r.txRows.length = 1 ∧ r.ledger.length = 1) := by
  refine ⟨_, rfl, rfl, ?_, by simp [handleSaveTransactions], ?_, ?_, ?_, ?_⟩
  · intro h hm
    simp only [handleSaveTransactions, List.mem_singleton] at hm
    subst hm
    exact ⟨rfl, rfl⟩
  · intro row hm
    simp only [handleSaveTransactions, List.mem_map] at hm
    obtain ⟨t, _, rfl⟩ := hm
    exact ⟨rfl, rfl⟩
  · exact length_flatMap_singleton _ _ (fun t => rfl)
  · intro e hm
    simp only [handleSaveTransactions, List.mem_flatMap] at hm
    obtain ⟨t, _, he⟩ := hm
    simp only [createBankTransactionLedgerEntries, List.mem_singleton] at he
    subst he
    rfl
  · intro h1
    refine ⟨by simp [handleSaveTransactions, h1], ?_⟩
    have := length_flatMap_singleton d.transactions
      (fun t => createBankTransactionLedgerEntries t userId) (fun t => rfl)
    simp only [handleSaveTransactions]
    omega

/-- The buffer statement of the spec's end-to-end example: one `FUEL`
transaction with debit 100 and balance 900. -/
def oneTxData : ExtractedStatementData :=
  { accountNumber := "AC1"
    bankName := "B"
    periodFrom := "2024-01-01"
    periodTo := "2024-01-31"
    openingBalance := "1000"
    closingBalance := "900"
    transactions := [{ date := "2024-01-05"
                       description := "FUEL"
                       debitAmount := 100
                       creditAmount := 0
                       balance := 900
                       referenceNumber := ""
                       category := "fuel_expense" }] }

/-- Witness for C7: committing the one-transaction example statement
yields one header, one transaction row and one owner-scoped ledger
entry. -/
theorem c7_witness :
    ((handleSaveTransactions (some oneTxData) (some "user-1") "1700" "iso" "st-1").map
        (fun r => r.headers.length)) = some 1 ∧
    ((handleSaveTransactions (some oneTxData) (some "user-1") "1700" "iso" "st-1").map
        (fun r => r.txRows.length)) = some 1 ∧
    ((handleSaveTransactions (some oneTxData) (some "user-1") "1700" "iso" "st-1").map
        (fun r => r.ledger.length)) = some 1 ∧
    ((handleSaveTransactions (some oneTxData) (some "user-1") "1700" "iso" "st-1").map
        (fun r => r.ledger.all (fun e => e.owner == "user-1"))) = some true := by
  obtain ⟨r, hr, hh, _, htx, _, hled, hown, hone⟩ :=
    c7_persistence_trace "user-1" "1700" "iso" "st-1" oneTxData
  have h1 : r.txRows.length = 1 := (hone (by decide)).1
  have h2 : r.ledger.length = 1 := (hone (by decide)).2
  have hall : r.ledger.all (fun e => e.owner == "user-1") = true := by
    rw [List.all_eq_true]
    intro e he
    simpa using hown e he
  rw [hr]
  simp [hh, h1, h2, hall]

/-- Reading back the field just set by a type-correct spread-update. -/
theorem getField_setField_same (t : Transaction) (f : TField) (v : FValue)
    (h : kindOK f v = true) : getField (setField t f v) f = v := by
  cases f <;> cases v <;> simp_all [kindOK, setField, getField]

/-- A spread-update leaves every other field of the row unchanged. -/
theorem getField_setField_other (t : Transaction) (f g : TField) (v : FValue)
    (h : g ≠ f) : getField (setField t f v) g = getField t g := by
  cases f <;> cases g <;> cases v <;> simp_all [setField, getField]

/-- C8: replacing field `f` of transaction `i` in the buffer yields a
state where that field reads back as the new value, every other field of
row `i` is unchanged, every row at another index is unchanged, and every
top-level statement field is unchanged. -/
theorem c8_transaction_edit_frame (d : ExtractedStatementData) (i : ℕ)
    (f : TField) (v : FValue) (hi : i < d.transactions.length)
    (hk : kindOK f v = true) :
    ((handleTransactionChange d i f v).transactions[i]?.map
        (fun t => getField t f)) = some v ∧
    (∀ g, g ≠ f →
      ((handleTransactionChange d i f v).transactions[i]?.map
          (fun t => getField t g))
        = (d.transactions[i]?.map (fun t => getField t g))) ∧
    (∀ j, j ≠ i →
      (handleTransactionChange d i f v).transactions[j]?
        = d.transactions[j]?) ∧
    (handleTransactionChange d i f v).accountNumber = d.accountNumber ∧
    (handleTransactionChange d i f v).bankName = d.bankName ∧
    (handleTransactionChange d i f v).periodFrom = d.periodFrom ∧
    (handleTransactionChange d i f v).periodTo = d.periodTo ∧
    (handleTransactionChange d i f v).openingBalance = d.openingBalance ∧
    (handleTransactionChange d i f v).closingBalance = d.closingBalance := by
  obtain ⟨t, ht⟩ : ∃ t, d.transactions[i]? = some t :=
    ⟨_, List.getElem?_eq_getElem hi⟩
  have hd : handleTransactionChange d i f v
      = { d with transactions := d.transactions.set i (setField t f v) } := by
    unfold handleTransactionChange
    rw [ht]
  rw [hd]
  refine ⟨?_, fun g hg => ?_, fun j hj => ?_, rfl, rfl, rfl, rfl, rfl, rfl⟩
  · simp only [List.getElem?_set_self hi, Option.map_some']
    rw [getField_setField_same t f v hk]
  · simp only [List.getElem?_set_self hi, ht, Option.map_some']
    rw [getField_setField_other t f g v hg]
  · exact List.getElem?_set_ne (fun hji => hj hji.symm)

/-- A two-row buffer statement used to witness the edit frame property. -/
def bufTwo : ExtractedStatementData :=
  { accountNumber := "AC1"
    bankName := "B"
    periodFrom := "2024-01-01"
    periodTo := "2024-01-31"
    openingBalance := "1000"
    closingBalance := "900"
    transactions := [{ date := "2024-01-05"
                       description := "FUEL"
                       debitAmount := 100
                       creditAmount := 0
                       balance := 900
                       referenceNumber := ""
                       category := "fuel_expense" }
                    ,{ date := "2024-01-06"
                       description := "RENT"
                       debitAmount := 200
                       creditAmount := 0
                       balance := 700
                       referenceNumber := "R1"
                       category := "rent_expense" }] }

/-- Witness for C8: editing row 0's category of the two-row buffer reads
back the new value, keeps row 0's description, keeps row 1 whole, and
keeps the account number. -/
theorem c8_witness :
    ((handleTransactionChange bufTwo 0 .category (.str "bank")).transactions[0]?.map
        (fun t => getField t .category)) = some (.str "bank") ∧
    ((handleTransactionChange bufTwo 0 .category (.str "bank")).transactions[0]?.map
        (fun t => getField t .description))
      = (bufTwo.transactions[0]?.map (fun t => getField t .description)) ∧
    (handleTransactionChange bufTwo 0 .category (.str "bank")).transactions[1]?
      = bufTwo.transactions[1]? ∧
    (handleTransactionChange bufTwo 0 .category (.str "bank")).accountNumber
      = bufTwo.accountNumber := by
  obtain ⟨h1, h2, h3, h4, _⟩ :=
    c8_transaction_edit_frame bufTwo 0 .category (.str "bank") (by decide) (by decide)
  exact ⟨h1, h2 .description (by decide), h3 1 (by decide), h4⟩

/-- A raw statement with every top-level property missing and a missing
transaction list. -/
def rawEmpty : RawStatement :=
  { accountNumber := .jUndef
    bankName := .jUndef
    statementPeriod := none
    openingBalance := .jUndef
    closingBalance := .jUndef
    transactions := none }

/-- C10 (amended): when the parsed object's `transactions` property is
missing or not an array, both variants replace it with the empty array
and answer success — there is no failure exit after a successful parse —
with zero transactions in the returned data; the first variant
additionally defaults the missing top-level fields, while the second
returns the top-level fields exactly as received. -/
theorem c10_missing_transactions_not_failure (today thirtyAgo : String)
    (s : RawStatement) (h : s.transactions = none) :
    gatewayRespond1 today thirtyAgo s
        = .success (normalizeStatement1 today thirtyAgo s) ∧
    (normalizeStatement1 today thirtyAgo s).transactions = [] ∧
    (truthy s.accountNumber = false →
      (normalizeStatement1 today thirtyAgo s).accountNumber = .jStr "UNKNOWN") ∧
    (truthy s.bankName = false →
      (normalizeStatement1 today thirtyAgo s).bankName = .jStr "Unknown Bank") ∧
    (s.statementPeriod = none →
      (normalizeStatement1 today thirtyAgo s).periodFrom = .jStr thirtyAgo ∧
      (normalizeStatement1 today thirtyAgo s).periodTo = .jStr today) ∧
    gatewayRespond2 today s = .success (normalizeStatement2 today s) ∧
    (normalizeStatement2 today s).transactions = [] := by
  refine ⟨rfl, ?_, fun hf => ?_, fun hf => ?_, fun hp => ?_, rfl, ?_⟩
  · simp [normalizeStatement1, h, cleanTransactions]
  · simp [normalizeStatement1, orDefault, hf]
  · simp [normalizeStatement1, orDefault, hf]
  · simp [normalizeStatement1, hp]
  · simp [normalizeStatement2, h]

/-- Witness for C10: on the all-missing raw statement the first variant
returns zero transactions with defaulted account number and period. -/
theorem c10_witness :
    (normalizeStatement1 "2024-01-05" "2023-12-06" rawEmpty).transactions = [] ∧
    (normalizeStatement1 "2024-01-05" "2023-12-06" rawEmpty).accountNumber
      = .jStr "UNKNOWN" ∧
    (normalizeStatement1 "2024-01-05" "2023-12-06" rawEmpty).periodFrom
      = .jStr "2023-12-06" ∧
    (normalizeStatement2 "2024-01-05" rawEmpty).transactions = [] := by
  obtain ⟨_, h2, h3, _, h5, _, h7⟩ :=
    c10_missing_transactions_not_failure "2024-01-05" "2023-12-06" rawEmpty rfl
  exact ⟨h2, h3 rfl, (h5 rfl).1, h7⟩

/-- Counterexample for C10: on the all-missing raw statement the second
variant still answers success with zero transactions, but its account
number stays `undefined` — the top-level fields are not defaulted as the
claim states. -/
theorem c10_counterexample :
    gatewayRespond2 "2024-01-05" rawEmpty
        = .success (normalizeStatement2 "2024-01-05" rawEmpty) ∧
    (normalizeStatement2 "2024-01-05" rawEmpty).transactions = [] ∧
    (normalizeStatement2 "2024-01-05" rawEmpty).accountNumber = .jUndef ∧
    (normalizeStatement2 "2024-01-05" rawEmpty).accountNumber ≠ .jStr "UNKNOWN" ∧
    truthy (normalizeStatement2 "2024-01-05" rawEmpty).bankName = false := by
  decide
